import Mathlib

/-!
Verification development for the EkiPick chat-orchestration core.

This file shallowly embeds the multi-agent chat pipeline of the repository:

* `app/services/send_pin.py`          — `SendPinStore` (per-user pin queue),
* `app/services/global_state.py`      — `check_conversation_if_exist`,
* `app/services/agents/custom_agent.py` — `CustomAgent.stream`,
* `app/routers/middlewares/rate_limit.py` — `check_rate_limit`,
* `app/routers/chat.py`               — `ChatRequest` validation, the two
  stream generators and the `chat` endpoint.

Modelling conventions:

* Each server-sent-event frame `data: {json}\n\n` is modelled as one
  structured `StreamEvent` (the json payload); the claims never inspect the
  raw wire text, only the event kind, fields and ordering.
* Pin coordinates are Python floats that are only carried through (never
  computed on); they are modelled as rationals.
* The LLM runner (`Runner.run_async`) is external; one invocation is
  modelled by a `RunBehavior`: the pins its tool calls enqueue plus the
  event list (or exception) the run produces.  An exception escaping an
  agent invocation outside the guarded run (e.g. from the session service)
  is modelled by the `Except.error` case of an `AgentBehavior`.
* Python process-wide dictionaries are modelled as explicit state that the
  functions take and return.
-/

namespace EkiPick

/-- Map pin payload (`SendPin` in `send_pin.py`): latitude, longitude and a
label. -/
structure SendPin where
  lat : ℚ
  lon : ℚ
  name : String
deriving DecidableEq, Repr

/-- One server-sent event of the chat stream: a pin frame
`{type: "pin", lat, lon, name}`, an agent reply frame
`{type: "agent_response", agent, agent_name, message, round}`, or an error
frame `{type: "error", message}`. -/
inductive StreamEvent where
  | pin (lat lon : ℚ) (name : String)
  | agentResponse (agent agent_name message : String) (round : Nat)
  | error (message : String)
deriving DecidableEq, Repr

/-- The pin frame stored for a pin by `SendPinStore.insert_pins`. -/
def pinEv (p : SendPin) : StreamEvent :=
  .pin p.lat p.lon p.name

/-- The agent-reply frame the chat router emits (every textual yield in
`chat.py` uses agent `"real_estate_response"`, agent name
`"不動産エージェント"` and round `0`). -/
def agentResp (message : String) : StreamEvent :=
  .agentResponse "real_estate_response" "不動産エージェント" message 0

/-! ## SendPinStore (`app/services/send_pin.py`)

`self.data` is a `defaultdict(list)` keyed by user id; it is modelled as a
total function defaulting to the empty list. -/

/-- State of `SendPinStore.data`: per-user insertion-ordered pin queues. -/
abbrev PinStore : Type := String → List SendPin

/-- Fresh `SendPinStore()`: every user's queue is empty. -/
def emptyPinStore : PinStore := fun _ => []

/-- `SendPinStore.insert_pins`: append the pin to the user's queue. -/
def SendPinStore.insert_pins (st : PinStore) (user_id : String) (pin : SendPin) : PinStore :=
  fun u => if u = user_id then st u ++ [pin] else st u

/-- `SendPinStore.extract_pins`: repeatedly `pop()` from the end of the
user's queue (so the returned frames are in reverse insertion order) and
leave the queue empty; an unknown user yields `[]`. -/
def SendPinStore.extract_pins (st : PinStore) (user_id : String) :
    List StreamEvent × PinStore :=
  ((st user_id).reverse.map pinEv, fun u => if u = user_id then [] else st u)

/-- Enqueue a whole list of pins in order (the pins a run's tool calls
insert, one `insert_pins` per pin). -/
def enqueueAll (st : PinStore) (user_id : String) (ps : List SendPin) : PinStore :=
  ps.foldl (fun s p => SendPinStore.insert_pins s user_id p) st

/-! ## Conversation registry (`app/services/global_state.py`)

`InMemorySessionService.sessions` is a nested dict
`app_name -> user_id -> session_id -> Session`; only key membership and
key insertion matter for the core, so it is modelled as nested association
lists of keys. -/

/-- State of `InMemorySessionService.sessions`, keys only. -/
abbrev Sessions : Type := List (String × List (String × List String))

/-- `check_conversation_if_exist`:
`name in sessions and user_id in sessions[name] and session_id in sessions[name][user_id]`. -/
def check_conversation_if_exist (sessions : Sessions)
    (name user_id session_id : String) : Bool :=
  match sessions.lookup name with
  | none => false
  | some users =>
    match users.lookup user_id with
    | none => false
    | some sids => sids.contains session_id

/-- Update (or create) the entry of an association list at a key, keeping
dict insertion order: an existing key is updated in place, a new key is
appended. -/
def setAssoc {α : Type} (l : List (String × α)) (k : String) (f : Option α → α) :
    List (String × α) :=
  match l with
  | [] => [(k, f none)]
  | (k', v) :: rest =>
    if k' = k then (k', f (some v)) :: rest else (k', v) :: setAssoc rest k f

/-- Modelled from the library collaborator
`InMemorySessionService.create_session` (called by `CustomAgent.stream`,
not under `src/`): registers `session_id` under
`sessions[app_name][user_id]`. -/
def create_session (s : Sessions) (app_name user_id session_id : String) : Sessions :=
  setAssoc s app_name (fun users =>
    setAssoc (users.getD []) user_id (fun sids => sids.getD [] ++ [session_id]))

/-- The session bookkeeping at the top of `CustomAgent.stream`: reuse the
session when the triple exists, otherwise create it (every `Runner` in the
repository runs under app name `"MODEL"`). -/
def ensureSession (s : Sessions) (user_id session_id : String) : Sessions :=
  if check_conversation_if_exist s "MODEL" user_id session_id then s
  else create_session s "MODEL" user_id session_id

/-! ## CustomAgent (`app/services/agents/custom_agent.py`) -/

/-- One part of an ADK event's content; `text` may be absent. -/
structure AdkPart where
  text : Option String
deriving DecidableEq, Repr

/-- One event produced by `Runner.run_async`.  `content = none` models a
missing/falsy `event.content`; `some parts` models present content with the
given part list. -/
structure AdkEvent where
  content : Option (List AdkPart)
deriving DecidableEq, Repr

/-- `"\n".join([p.text for p in parts if p.text])`'s argument: the
non-empty part texts in order. -/
def partTexts (ps : List AdkPart) : List String :=
  ps.filterMap fun p =>
    match p.text with
    | some t => if t = "" then none else some t
    | none => none

/-- The text `CustomAgent.stream` appends to `result` for one event, if
any: content and parts must be truthy, and the joined text non-empty. -/
def eventResponse (e : AdkEvent) : Option String :=
  match e.content with
  | none => none
  | some ps =>
    if ps = [] then none
    else
      let r := String.intercalate "\n" (partTexts ps)
      if r = "" then none else some r

/-- The fail-soft sentinel appended when a run yields no textual output. -/
def noOutputMessage : String := "応答を生成できませんでした。"

/-- The `try`-guarded tail of `CustomAgent.stream`: collect the textual
outputs of the run's events; an empty collection is replaced by the
"no output" sentinel; a raised exception is converted into a single
human-readable failure message.  The result is the returned
`AgentTurnResult`. -/
def streamResult (outcome : Except String (List AdkEvent)) : List String :=
  match outcome with
  | .error e => ["エラーが発生しました: " ++ e]
  | .ok events =>
    match events.filterMap eventResponse with
    | [] => [noOutputMessage]
    | r => r

/-- One invocation of the external runner: the pins its tool calls enqueue
for the user (in order), and the run outcome consumed by the guarded part
of `CustomAgent.stream`. -/
structure RunBehavior where
  pins : List SendPin
  runOutcome : Except String (List AdkEvent)

/-- `response[-1]` of a turn: the last element of the `AgentTurnResult`
(`streamResult` is never empty, so the default is never used). -/
def turnMessage (rb : RunBehavior) : String :=
  (streamResult rb.runOutcome).getLastD ""

/-- Behaviour of one agent invocation as a function of the query it is
invoked with.  `Except.error e` models an exception escaping the
invocation outside the guarded run (e.g. from session creation), which
`CustomAgent.stream` does not catch. -/
abbrev AgentBehavior : Type := String → Except String RunBehavior

/-- An agent invocation whose unguarded part never throws. -/
def liftOk (f : String → RunBehavior) : AgentBehavior :=
  fun q => .ok (f q)

/-- `CustomAgent.stream`: ensure the session for `("MODEL", user_id,
session_id)`, run the agent (its tool calls enqueue pins for `user_id`),
and return the `AgentTurnResult`; threading the session registry and the
pin store explicitly. -/
def CustomAgent.stream (b : AgentBehavior) (query user_id session_id : String)
    (sessions : Sessions) (store : PinStore) :
    Except String (Sessions × PinStore × List String) :=
  match b query with
  | .error e => .error e
  | .ok rb =>
    .ok (ensureSession sessions user_id session_id,
         enqueueAll store user_id rb.pins,
         streamResult rb.runOutcome)

/-! ## Chat orchestration (`app/routers/chat.py`) -/

/-- Python's substring test `needle in haystack`. -/
def strContains (haystack needle : String) : Bool :=
  (List.range (haystack.data.length + 1)).any fun i =>
    decide ((haystack.data.drop i).take needle.data.length = needle.data)

/-- The behaviours of the seven agent invocations of the first-turn
pipeline (`build_station_agent`, `build_suggest_agent`,
`build_multiple_pin_station_agent`, `build_report_agent(_, 1..3)`,
`build_followup_agent`). -/
structure FirstBehaviors where
  station : AgentBehavior
  suggestion : AgentBehavior
  multiPin : AgentBehavior
  report1 : AgentBehavior
  report2 : AgentBehavior
  report3 : AgentBehavior
  followup : AgentBehavior

/-- First-turn behaviours none of whose invocations throw outside the
guarded run. -/
structure FirstOkBehaviors where
  station : String → RunBehavior
  suggestion : String → RunBehavior
  multiPin : String → RunBehavior
  report1 : String → RunBehavior
  report2 : String → RunBehavior
  report3 : String → RunBehavior
  followup : String → RunBehavior

/-- View non-throwing behaviours as general ones. -/
def FirstOkBehaviors.lift (O : FirstOkBehaviors) : FirstBehaviors :=
  ⟨liftOk O.station, liftOk O.suggestion, liftOk O.multiPin,
   liftOk O.report1, liftOk O.report2, liftOk O.report3, liftOk O.followup⟩

/-- The report loop of `_generate_first_conversation` (`for i in range(3)`):
invoke each report agent with `pins_message`; if the reply contains
`"出力無"` stop without emitting, otherwise emit the reply and continue.
Returns the registry/store state and the emitted events, or propagates an
escaping exception. -/
def reportLoop (bs : List AgentBehavior) (pins_message user_id session_id : String)
    (sessions : Sessions) (store : PinStore) :
    Except String (Sessions × PinStore × List StreamEvent) :=
  match bs with
  | [] => .ok (sessions, store, [])
  | b :: rest =>
    match CustomAgent.stream b pins_message user_id session_id sessions store with
    | .error e => .error e
    | .ok (s1, p1, result) =>
      if strContains (result.getLastD "") "出力無" then .ok (s1, p1, [])
      else
        match reportLoop rest pins_message user_id session_id s1 p1 with
        | .error e => .error e
        | .ok (s2, p2, evs) => .ok (s2, p2, agentResp (result.getLastD "") :: evs)

/-- The messages the report loop emits, given the three slot replies in
order: take replies until one contains `"出力無"`, dropping that one and
everything after it. -/
def reportMessages (msgs : List String) : List String :=
  match msgs with
  | [] => []
  | m :: rest => if strContains m "出力無" then [] else m :: reportMessages rest

/-- Final registry/store state of the report loop for non-throwing
behaviours (each executed slot ensures the session and enqueues its pins;
the slot that breaks the loop has already run). -/
def reportTrace (fs : List (String → RunBehavior)) (q user_id session_id : String)
    (s : Sessions) (p : PinStore) : Sessions × PinStore :=
  match fs with
  | [] => (s, p)
  | f :: rest =>
    let s1 := ensureSession s user_id session_id
    let p1 := enqueueAll p user_id (f q).pins
    if strContains (turnMessage (f q)) "出力無" then (s1, p1)
    else reportTrace rest q user_id session_id s1 p1

/-- Orchestration state threaded through a pipeline: the session registry
(`SESSION_SERVICE.sessions`) and the pin store (`DATA_STORES.data`). -/
structure OrchState where
  sessions : Sessions
  pins : PinStore

/-- `_generate_first_conversation`: the first-turn pipeline.  Returns the
events yielded on the stream and either the final state or the exception
that escaped (the generator has no top-level guard, so an escaping
exception cuts the stream after the events already yielded, without any
error event). -/
def generate_first_conversation (b : FirstBehaviors) (user_message user_id session_id : String)
    (st : OrchState) : List StreamEvent × Except String OrchState :=
  match CustomAgent.stream b.station user_message user_id session_id st.sessions st.pins with
  | .error e => ([], .error e)
  | .ok (s1, p1, r1) =>
    let pin_message := r1.getLastD ""
    let d1 := SendPinStore.extract_pins p1 user_id
    let evs1 := d1.1 ++ [agentResp pin_message]
    match CustomAgent.stream b.suggestion user_message user_id session_id s1 d1.2 with
    | .error e => (evs1, .error e)
    | .ok (s2, p2, r2) =>
      let suggestion_message := r2.getLastD ""
      let evs2 := evs1 ++ [agentResp suggestion_message]
      match CustomAgent.stream b.multiPin suggestion_message user_id session_id s2 p2 with
      | .error e => (evs2, .error e)
      | .ok (s3, p3, r3) =>
        let pins_message := r3.getLastD ""
        let d2 := SendPinStore.extract_pins p3 user_id
        let evs3 := evs2 ++ [agentResp pins_message] ++ d2.1
        match reportLoop [b.report1, b.report2, b.report3] pins_message user_id session_id s3 d2.2 with
        | .error e => (evs3, .error e)
        | .ok (s4, p4, revs) =>
          let evs4 := evs3 ++ revs
          match CustomAgent.stream b.followup suggestion_message user_id session_id s4 p4 with
          | .error e => (evs4, .error e)
          | .ok (s5, p5, r5) =>
            (evs4 ++ [agentResp (r5.getLastD "")], .ok ⟨s5, p5⟩)

/-- `_generate_after_second_conversations`: the continuation pipeline.  The
whole body is wrapped in `try/except`: an escaping exception is converted
into a single terminal error event and the generator then finishes
normally. -/
def generate_after_second_conversations (b : AgentBehavior)
    (message user_id session_id : String) (st : OrchState) :
    List StreamEvent × Except String OrchState :=
  match CustomAgent.stream b message user_id session_id st.sessions st.pins with
  | .error e =>
    ([StreamEvent.error ("会話中にエラーが発生しました: " ++ e)], .ok st)
  | .ok (s1, p1, r) =>
    let d := SendPinStore.extract_pins p1 user_id
    (d.1 ++ [agentResp (r.getLastD "")], .ok ⟨s1, d.2⟩)

/-- The event trace of a complete first-turn pipeline run with
non-throwing behaviours, spelled out: LOCATE's drained pins, LOCATE's
reply, SUGGEST's reply, PIN_SUGGESTIONS' reply, PIN_SUGGESTIONS' drained
pins (note: after the reply), the surviving report replies, FOLLOWUP's
reply. -/
def firstEvents (O : FirstOkBehaviors) (m user_id : String) (st : OrchState) :
    List StreamEvent :=
  let m1 := turnMessage (O.station m)
  let m2 := turnMessage (O.suggestion m)
  let m3 := turnMessage (O.multiPin m2)
  let rms := [turnMessage (O.report1 m3), turnMessage (O.report2 m3),
              turnMessage (O.report3 m3)]
  ((st.pins user_id ++ (O.station m).pins).reverse.map pinEv)
    ++ [agentResp m1]
    ++ [agentResp m2]
    ++ [agentResp m3]
    ++ (((O.suggestion m).pins ++ (O.multiPin m2).pins).reverse.map pinEv)
    ++ (reportMessages rms).map agentResp
    ++ [agentResp (turnMessage (O.followup m2))]

/-! ## Rate limiter (`app/routers/middlewares/rate_limit.py`)

`_REQUEST_COUNTS` maps a client ip to a dict from timestamp keys to
counts; the dict is modelled as an insertion-ordered association list and
the string timestamp keys directly as integers (`str`/`int` conversion in
the source is a bijection on the keys it writes). -/

/-- State of `_REQUEST_COUNTS`. -/
abbrev RateCounts : Type := String → List (Int × Nat)

/-- Initial `_REQUEST_COUNTS`: empty for every client. -/
def emptyRateCounts : RateCounts := fun _ => []

/-- `dict[key] = dict.get(key, 0) + 1`: increment an existing key in
place, or append a new key. -/
def bumpBucket (bs : List (Int × Nat)) (key : Int) : List (Int × Nat) :=
  if bs.any fun b => decide (b.1 = key) then
    bs.map fun b => if b.1 = key then (b.1, b.2 + 1) else b
  else bs ++ [(key, 1)]

/-- `check_rate_limit`: prune the client's buckets to those with timestamp
strictly newer than `now - window`; reject if the surviving counts already
reach the limit (recording nothing); otherwise record the request under
the current minute bucket `now // 60 * 60` and accept.  Returns the
decision and the updated `_REQUEST_COUNTS` state. -/
def check_rate_limit (counts : RateCounts) (client_ip : String) (now : Int)
    (limit : Nat) (window : Int) : Bool × RateCounts :=
  let window_start := now - window
  let pruned := (counts client_ip).filter fun b => decide (window_start < b.1)
  let total := (pruned.map Prod.snd).sum
  if limit ≤ total then
    (false, fun c => if c = client_ip then pruned else counts c)
  else
    let current_minute := now / 60 * 60
    (true, fun c => if c = client_ip then bumpBucket pruned current_minute else counts c)

/-- Fold a sequence of requests (their arrival times, oldest first) from
one client through `check_rate_limit` with the default limit 10 and
window 60, keeping the final state. -/
def rateCallsAll (counts : RateCounts) (client : String) (times : List Int) : RateCounts :=
  times.foldl (fun cs t => (check_rate_limit cs client t 10 60).2) counts

/-- A `_REQUEST_COUNTS` state holding buckets for one client only. -/
def singleClient (cl : String) (b : List (Int × Nat)) : RateCounts :=
  fun c => if c = cl then b else []

/-! ## ChatRequest validation (`app/routers/chat.py`)

Pydantic v2 semantics: each field's `Field` constraints (`min_length`,
`max_length`) are checked first, then the field's mode-`after` validator
runs on the already-accepted value; the value an after-validator returns
is *not* re-checked against the constraints. -/

/-- Python `str.strip()`. -/
def pyStrip (s : String) : String :=
  ⟨((s.data.dropWhile Char.isWhitespace).reverse.dropWhile Char.isWhitespace).reverse⟩

/-- Python `str.isalnum()` (ASCII fragment): non-empty and every character
alphanumeric. -/
def pyIsalnum (s : String) : Bool :=
  !s.data.isEmpty && s.data.all Char.isAlphanum

/-- Python `str.replace(c, "")`: remove every occurrence of the
character. -/
def pyRemoveAll (s : String) (c : Char) : String :=
  ⟨s.data.filter fun a => decide (a ≠ c)⟩

/-- The raw request body before validation. -/
structure ChatRequestRaw where
  message : String
  session_id : String
deriving DecidableEq, Repr

/-- A validated `ChatRequest`. -/
structure ChatRequest where
  message : String
  session_id : String
deriving DecidableEq, Repr

/-- The `sanitize_message` validator: `v.strip()`. -/
def ChatRequest.sanitize_message (v : String) : String := pyStrip v

/-- The `validate_session_id` validator:
`v.replace("-", "").replace("_", "").isalnum()` or a `ValueError`. -/
def ChatRequest.validate_session_id (v : String) : Except String String :=
  if pyIsalnum (pyRemoveAll (pyRemoveAll v '-') '_') then .ok v
  else .error "session_id must contain only alphanumeric characters, hyphens, and underscores"

/-- Validation of a `ChatRequest` body: length constraints on the raw
field values, then the after-validators. -/
def validateChatRequest (raw : ChatRequestRaw) : Except String ChatRequest :=
  if raw.message.length < 1 then .error "message too short"
  else if 1000 < raw.message.length then .error "message too long"
  else if raw.session_id.length < 1 then .error "session_id too short"
  else if 100 < raw.session_id.length then .error "session_id too long"
  else
    match ChatRequest.validate_session_id raw.session_id with
    | .error e => .error e
    | .ok sid => .ok ⟨ChatRequest.sanitize_message raw.message, sid⟩

/-! ## The chat endpoint (`chat` in `app/routers/chat.py`) -/

/-- Outcome of one request to the chat endpoint: a validation rejection
(before the handler runs), a 429 rate-limit rejection, or a stream. -/
inductive ChatOutcome where
  | validationError (detail : String)
  | rateLimited
  | streamed (events : List StreamEvent) (final : Except String OrchState)

/-- The `chat` endpoint: body validation (by FastAPI, before the handler),
then the rate-limit gate, then one registry-existence check for
`("MODEL", session_id, session_id)` selecting which generator produces
the stream (`user_id` and `session_id` are both the request's
`session_id`). -/
def chat (raw : ChatRequestRaw) (counts : RateCounts) (client_ip : String) (now : Int)
    (st : OrchState) (firstB : FirstBehaviors) (contB : AgentBehavior) :
    ChatOutcome × RateCounts :=
  match validateChatRequest raw with
  | .error e => (.validationError e, counts)
  | .ok req =>
    let rl := check_rate_limit counts client_ip now 10 60
    if rl.1 then
      if check_conversation_if_exist st.sessions "MODEL" req.session_id req.session_id then
        let g := generate_after_second_conversations contB req.message req.session_id req.session_id st
        (.streamed g.1 g.2, rl.2)
      else
        let g := generate_first_conversation firstB req.message req.session_id req.session_id st
        (.streamed g.1 g.2, rl.2)
    else (.rateLimited, rl.2)

/-! ## Basic lemmas -/

/-- An `AgentTurnResult` is never empty: a failure yields one failure
message, an output-less run yields the sentinel. -/
lemma streamResult_ne_nil (o : Except String (List AdkEvent)) : streamResult o ≠ [] := by
  cases o with
  | error e => simp [streamResult]
  | ok evs =>
    simp only [streamResult]
    cases h : evs.filterMap eventResponse <;> simp

/-- Evaluating an `enqueueAll`-updated store: the user's queue grows at the
end, other queues are untouched. -/
lemma enqueueAll_apply (st : PinStore) (user_id : String) (ps : List SendPin) (u : String) :
    enqueueAll st user_id ps u = if u = user_id then st u ++ ps else st u := by
  induction ps generalizing st with
  | nil => by_cases h : u = user_id <;> simp [enqueueAll, h]
  | cons p ps ih =>
    have h0 : enqueueAll st user_id (p :: ps) =
        enqueueAll (SendPinStore.insert_pins st user_id p) user_id ps := rfl
    rw [h0, ih]
    by_cases h : u = user_id <;> simp [SendPinStore.insert_pins, h]

/-- Unfolding `CustomAgent.stream` on a non-throwing behaviour. -/
lemma CustomAgent.stream_liftOk (f : String → RunBehavior) (q user_id session_id : String)
    (s : Sessions) (p : PinStore) :
    CustomAgent.stream (liftOk f) q user_id session_id s p =
      .ok (ensureSession s user_id session_id, enqueueAll p user_id (f q).pins,
           streamResult (f q).runOutcome) := rfl

/-- The report loop on non-throwing behaviours: it never propagates an
exception, its events are the `agentResp` frames of the surviving replies,
and its state is `reportTrace`. -/
lemma reportLoop_liftOk (fs : List (String → RunBehavior)) (q user_id session_id : String) :
    ∀ (s : Sessions) (p : PinStore),
      reportLoop (fs.map liftOk) q user_id session_id s p =
        .ok ((reportTrace fs q user_id session_id s p).1,
             (reportTrace fs q user_id session_id s p).2,
             (reportMessages (fs.map fun f => turnMessage (f q))).map agentResp) := by
  induction fs with
  | nil => intro s p; rfl
  | cons f rest ih =>
    intro s p
    simp only [List.map_cons, reportLoop, CustomAgent.stream_liftOk, reportTrace,
               reportMessages, turnMessage]
    by_cases hc : strContains ((streamResult (f q).runOutcome).getLast?.getD "") "出力無" = true
    · simp [hc]
    · simp [hc, ih, turnMessage, List.getLastD_eq_getLast?]

/-- The report loop on exactly the three slots of the first-turn pipeline. -/
lemma reportLoop_liftOk3 (f1 f2 f3 : String → RunBehavior) (q user_id session_id : String)
    (s : Sessions) (p : PinStore) :
    reportLoop [liftOk f1, liftOk f2, liftOk f3] q user_id session_id s p =
      .ok ((reportTrace [f1, f2, f3] q user_id session_id s p).1,
           (reportTrace [f1, f2, f3] q user_id session_id s p).2,
           (reportMessages [turnMessage (f1 q), turnMessage (f2 q), turnMessage (f3 q)]).map
             agentResp) := by
  simpa using reportLoop_liftOk [f1, f2, f3] q user_id session_id s p

/-- The complete event trace of the first-turn pipeline on non-throwing
behaviours is `firstEvents`. -/
lemma firstConversation_events (O : FirstOkBehaviors) (m user_id session_id : String)
    (st : OrchState) :
    (generate_first_conversation (FirstOkBehaviors.lift O) m user_id session_id st).1 =
      firstEvents O m user_id st := by
  simp only [generate_first_conversation, FirstOkBehaviors.lift, CustomAgent.stream_liftOk,
    reportLoop_liftOk3, SendPinStore.extract_pins, firstEvents, turnMessage,
    enqueueAll_apply]
  simp [List.append_assoc]

/-- The event trace of the continuation pipeline on a non-throwing
behaviour: the drained pins, then the reply. -/
lemma afterSecond_events (g : String → RunBehavior) (m user_id session_id : String)
    (st : OrchState) :
    (generate_after_second_conversations (liftOk g) m user_id session_id st).1 =
      ((st.pins user_id ++ (g m).pins).reverse.map pinEv)
        ++ [agentResp (turnMessage (g m))] := by
  simp [generate_after_second_conversations, CustomAgent.stream_liftOk,
    SendPinStore.extract_pins, enqueueAll_apply, turnMessage]

/-! ## Claim C3 — PinStore drain is LIFO and destructive -/

/-- C3: enqueuing `[p1, p2, p3]` into an empty queue and draining returns
exactly `[p3, p2, p1]` (as pin frames, reverse of insertion order); a
second drain on the same user returns the empty sequence; and a drain for
any user whose queue holds nothing (in particular an unknown user) returns
the empty sequence rather than an error. -/
theorem pinstore_drain_lifo (user_id u : String) (p1 p2 p3 : SendPin)
    (st : PinStore) (h : st u = []) :
    (SendPinStore.extract_pins
        (SendPinStore.insert_pins (SendPinStore.insert_pins
          (SendPinStore.insert_pins emptyPinStore user_id p1) user_id p2) user_id p3)
        user_id).1 = [pinEv p3, pinEv p2, pinEv p1]
    ∧ (SendPinStore.extract_pins
        (SendPinStore.extract_pins
          (SendPinStore.insert_pins (SendPinStore.insert_pins
            (SendPinStore.insert_pins emptyPinStore user_id p1) user_id p2) user_id p3)
          user_id).2 user_id).1 = []
    ∧ (SendPinStore.extract_pins st u).1 = [] := by
  refine ⟨?_, ?_, ?_⟩ <;>
    simp [SendPinStore.extract_pins, SendPinStore.insert_pins, emptyPinStore, h]

/-- Witness for `pinstore_drain_lifo` at concrete pins and users. -/
theorem pinstore_drain_lifo_witness :
    (SendPinStore.extract_pins
        (SendPinStore.insert_pins (SendPinStore.insert_pins
          (SendPinStore.insert_pins emptyPinStore "u" ⟨1, 1, "a"⟩) "u" ⟨2, 2, "b"⟩)
          "u" ⟨3, 3, "c"⟩) "u").1
      = [pinEv ⟨3, 3, "c"⟩, pinEv ⟨2, 2, "b"⟩, pinEv ⟨1, 1, "a"⟩]
    ∧ (SendPinStore.extract_pins
        (SendPinStore.extract_pins
          (SendPinStore.insert_pins (SendPinStore.insert_pins
            (SendPinStore.insert_pins emptyPinStore "u" ⟨1, 1, "a"⟩) "u" ⟨2, 2, "b"⟩)
            "u" ⟨3, 3, "c"⟩) "u").2 "u").1 = []
    ∧ (SendPinStore.extract_pins emptyPinStore "unknown").1 = [] :=
  pinstore_drain_lifo "u" "unknown" ⟨1, 1, "a"⟩ ⟨2, 2, "b"⟩ ⟨3, 3, "c"⟩ emptyPinStore rfl

/-! ## Claim C4 — Agent fail-soft contract -/

/-- C4: the guarded part of `CustomAgent.stream` never returns an empty
`AgentTurnResult`: an internal failure during the run is converted into a
single-element result carrying the failure message, a run with zero
textual outputs gives the single-element "no output" sentinel, and an
invocation whose unguarded part does not throw always hands the
orchestrator `streamResult` of the run outcome (hence at least one textual
output). -/
theorem agent_fail_soft :
    (∀ o : Except String (List AdkEvent), streamResult o ≠ [])
    ∧ (∀ e : String, streamResult (.error e) = ["エラーが発生しました: " ++ e])
    ∧ (∀ evs : List AdkEvent, evs.filterMap eventResponse = [] →
        streamResult (.ok evs) = [noOutputMessage])
    ∧ (∀ (f : String → RunBehavior) (q user_id session_id : String)
        (s : Sessions) (p : PinStore),
        CustomAgent.stream (liftOk f) q user_id session_id s p =
          .ok (ensureSession s user_id session_id, enqueueAll p user_id (f q).pins,
               streamResult (f q).runOutcome)) := by
  refine ⟨streamResult_ne_nil, fun e => rfl, ?_, fun f q user_id session_id s p => rfl⟩
  intro evs h
  simp [streamResult, h]

/-- Witness for `agent_fail_soft` at concrete outcomes. -/
theorem agent_fail_soft_witness :
    streamResult (.ok ([] : List AdkEvent)) = [noOutputMessage]
    ∧ streamResult (.error "boom") = ["エラーが発生しました: boom"]
    ∧ streamResult (.ok ([] : List AdkEvent)) ≠ [] :=
  ⟨agent_fail_soft.2.2.1 [] rfl, agent_fail_soft.2.1 "boom",
   agent_fail_soft.1 (.ok [])⟩

/-! ## Claim C1 — stream ordering of pin drains vs. step replies -/

/-- A run event carrying one non-empty text part. -/
def evOf (t : String) : AdkEvent := ⟨some [⟨some t⟩]⟩

/-- A run producing one reply `t` and enqueuing the given pins. -/
def rbOf (t : String) (ps : List SendPin) : RunBehavior := ⟨ps, .ok [evOf t]⟩

/-- Concrete first-turn behaviours: only the multi-pin agent enqueues a
pin, and the first report slot replies with the sentinel. -/
def pinOrderFirstB : FirstBehaviors :=
  ⟨fun _ => .ok (rbOf "ST" []), fun _ => .ok (rbOf "SG" []),
   fun _ => .ok (rbOf "PM" [⟨1, 2, "A"⟩]), fun _ => .ok (rbOf "出力無" []),
   fun _ => .ok (rbOf "R2" []), fun _ => .ok (rbOf "R3" []),
   fun _ => .ok (rbOf "FU" [])⟩

/-- C1 is false on the code: in the PIN_SUGGESTIONS step the textual reply
is yielded (index 2) *before* the pin drained for that step (index 3) —
`chat.py` yields `pins_message` first and only then drains the store — so
a pin event drained for that step is not emitted before the step's
`agent_response` event. -/
theorem stream_pin_order_counterexample :
    (generate_first_conversation pinOrderFirstB "m" "u" "s" ⟨[], emptyPinStore⟩).1 =
      [agentResp "ST", agentResp "SG", agentResp "PM",
       StreamEvent.pin 1 2 "A", agentResp "FU"]
    ∧ (generate_first_conversation pinOrderFirstB "m" "u" "s" ⟨[], emptyPinStore⟩).1[2]? =
        some (agentResp "PM")
    ∧ (generate_first_conversation pinOrderFirstB "m" "u" "s" ⟨[], emptyPinStore⟩).1[3]? =
        some (StreamEvent.pin 1 2 "A") := by
  refine ⟨?_, ?_, ?_⟩ <;> rfl

/-- C1 (amended): pin-drain events precede the step's reply in the LOCATE
step of the first-turn pipeline and in the continuation (GENERAL) step;
in the PIN_SUGGESTIONS step the reply is emitted first and the pins
drained for that step follow immediately after it.  Both full traces are
spelled out (`firstEvents` places the LOCATE drain before `m1` and the
PIN_SUGGESTIONS drain right after `m3`; the continuation trace places its
drain before its reply). -/
theorem stream_pin_order_amended :
    (∀ (O : FirstOkBehaviors) (m user_id session_id : String) (st : OrchState),
       (generate_first_conversation (FirstOkBehaviors.lift O) m user_id session_id st).1 =
         firstEvents O m user_id st)
    ∧ (∀ (g : String → RunBehavior) (m user_id session_id : String) (st : OrchState),
       (generate_after_second_conversations (liftOk g) m user_id session_id st).1 =
         ((st.pins user_id ++ (g m).pins).reverse.map pinEv)
           ++ [agentResp (turnMessage (g m))]) :=
  ⟨firstConversation_events, afterSecond_events⟩

/-! ## Claim C5 — report-loop early termination -/

/-- C5: the report loop runs at most the three slots in order, each
invoked with `pins_message` (first conjunct: its events are the
`agentResp` frames of the slot replies at `pins_message`, cut at the first
sentinel reply, which is itself not emitted); and when the *first* slot's
reply is exactly the sentinel `"出力無"`, zero report events are emitted
and the pipeline still proceeds to FOLLOWUP, which is invoked with
`suggestion_message` (not a report) — second conjunct, where the final
reply comes from `O.followup` applied to SUGGEST's reply. -/
theorem report_loop_early_termination (O : FirstOkBehaviors) (m user_id session_id : String)
    (st : OrchState)
    (h : turnMessage (O.report1
          (turnMessage (O.multiPin (turnMessage (O.suggestion m))))) = "出力無") :
    (∀ (f1 f2 f3 : String → RunBehavior) (q uid sid : String) (s : Sessions) (p : PinStore),
      reportLoop [liftOk f1, liftOk f2, liftOk f3] q uid sid s p =
        .ok ((reportTrace [f1, f2, f3] q uid sid s p).1,
             (reportTrace [f1, f2, f3] q uid sid s p).2,
             (reportMessages [turnMessage (f1 q), turnMessage (f2 q),
                              turnMessage (f3 q)]).map agentResp))
    ∧ (generate_first_conversation (FirstOkBehaviors.lift O) m user_id session_id st).1 =
        ((st.pins user_id ++ (O.station m).pins).reverse.map pinEv)
          ++ [agentResp (turnMessage (O.station m))]
          ++ [agentResp (turnMessage (O.suggestion m))]
          ++ [agentResp (turnMessage (O.multiPin (turnMessage (O.suggestion m))))]
          ++ (((O.suggestion m).pins
                ++ (O.multiPin (turnMessage (O.suggestion m))).pins).reverse.map pinEv)
          ++ [agentResp (turnMessage (O.followup (turnMessage (O.suggestion m))))] := by
  refine ⟨reportLoop_liftOk3, ?_⟩
  rw [firstConversation_events]
  have hs : strContains "出力無" "出力無" = true := by decide
  simp [firstEvents, reportMessages, h, hs, List.append_assoc]

/-- Non-throwing first-turn behaviours whose first report slot replies
with the sentinel. -/
def sentinelFirstOkB : FirstOkBehaviors :=
  ⟨fun _ => rbOf "ST" [], fun _ => rbOf "SG" [], fun _ => rbOf "PM" [],
   fun _ => rbOf "出力無" [], fun _ => rbOf "R2" [], fun _ => rbOf "R3" [],
   fun _ => rbOf "FU" []⟩

/-- Witness for `report_loop_early_termination` at concrete behaviours. -/
theorem report_loop_early_termination_witness :
    (generate_first_conversation (FirstOkBehaviors.lift sentinelFirstOkB) "m" "u" "s"
        ⟨[], emptyPinStore⟩).1 =
      ((emptyPinStore "u" ++ (sentinelFirstOkB.station "m").pins).reverse.map pinEv)
        ++ [agentResp (turnMessage (sentinelFirstOkB.station "m"))]
        ++ [agentResp (turnMessage (sentinelFirstOkB.suggestion "m"))]
        ++ [agentResp (turnMessage (sentinelFirstOkB.multiPin
              (turnMessage (sentinelFirstOkB.suggestion "m"))))]
        ++ (((sentinelFirstOkB.suggestion "m").pins
              ++ (sentinelFirstOkB.multiPin
                    (turnMessage (sentinelFirstOkB.suggestion "m"))).pins).reverse.map pinEv)
        ++ [agentResp (turnMessage (sentinelFirstOkB.followup
              (turnMessage (sentinelFirstOkB.suggestion "m"))))] :=
  (report_loop_early_termination sentinelFirstOkB "m" "u" "s" ⟨[], emptyPinStore⟩ rfl).2

/-! ## Claim C2 — one-shot orchestration branch selection -/

/-- Looking up the key just written by `setAssoc`. -/
lemma lookup_setAssoc_self {α : Type} (l : List (String × α)) (k : String) (f : Option α → α) :
    (setAssoc l k f).lookup k = some (f (l.lookup k)) := by
  induction l with
  | nil => simp [setAssoc, List.lookup]
  | cons kv rest ih =>
    obtain ⟨k', v⟩ := kv
    by_cases h : k' = k
    · subst h
      simp [setAssoc, List.lookup]
    · have h' : (k == k') = false := by
        simp [beq_iff_eq]
        exact fun hk => h hk.symm
      simp [setAssoc, h, List.lookup, h', ih]

/-- A list contains an element just appended to it. -/
lemma contains_append_singleton (l : List String) (x : String) :
    (l ++ [x]).contains x = true := by
  simp

/-- After `create_session`, the conversation marker for the same triple
exists. -/
lemma exists_create_session (s : Sessions) (app_name user_id session_id : String) :
    check_conversation_if_exist (create_session s app_name user_id session_id)
      app_name user_id session_id = true := by
  simp only [check_conversation_if_exist, create_session, lookup_setAssoc_self]
  exact contains_append_singleton _ _

/-- C2: once a request passes validation and the rate limiter, the
pipeline is selected by the single registry-existence check for
`("MODEL", session_id, session_id)`: with no marker, the stream is the
complete first-turn trace `firstEvents` (all steps LOCATE through
FOLLOWUP) even though the very first agent invocation creates the marker
(second inner conjunct); with a marker, the stream is the single GENERAL
step's trace (drained pins then one reply).  The branch is decided once —
the emitted trace depends only on the registry state at entry. -/
theorem branch_selection_once
    (raw : ChatRequestRaw) (req : ChatRequest) (counts : RateCounts) (client_ip : String)
    (now : Int) (st : OrchState) (O : FirstOkBehaviors) (g : String → RunBehavior)
    (hv : validateChatRequest raw = .ok req)
    (hr : (check_rate_limit counts client_ip now 10 60).1 = true) :
    (check_conversation_if_exist st.sessions "MODEL" req.session_id req.session_id = false →
      chat raw counts client_ip now st (FirstOkBehaviors.lift O) (liftOk g) =
        (ChatOutcome.streamed (firstEvents O req.message req.session_id st)
          (generate_first_conversation (FirstOkBehaviors.lift O) req.message
            req.session_id req.session_id st).2,
         (check_rate_limit counts client_ip now 10 60).2)
      ∧ check_conversation_if_exist
          (create_session st.sessions "MODEL" req.session_id req.session_id)
          "MODEL" req.session_id req.session_id = true)
    ∧ (check_conversation_if_exist st.sessions "MODEL" req.session_id req.session_id = true →
      chat raw counts client_ip now st (FirstOkBehaviors.lift O) (liftOk g) =
        (ChatOutcome.streamed
          (((st.pins req.session_id ++ (g req.message).pins).reverse.map pinEv)
            ++ [agentResp (turnMessage (g req.message))])
          (generate_after_second_conversations (liftOk g) req.message
            req.session_id req.session_id st).2,
         (check_rate_limit counts client_ip now 10 60).2)) := by
  constructor
  · intro hex
    refine ⟨?_, exists_create_session _ _ _ _⟩
    simp only [chat, hv, hr, hex, if_true, Bool.false_eq_true, if_false,
      firstConversation_events]
  · intro hex
    simp only [chat, hv, hr, hex, if_true, afterSecond_events]

/-- Non-throwing behaviour with no pins and no textual output. -/
def quietRun : String → RunBehavior := fun _ => ⟨[], .ok []⟩

/-- Non-throwing first-turn behaviours that do nothing observable. -/
def quietFirstOkB : FirstOkBehaviors :=
  ⟨quietRun, quietRun, quietRun, quietRun, quietRun, quietRun, quietRun⟩

/-- Witness for `branch_selection_once` at a concrete fresh state: the
registry is empty, so the first-turn branch runs in full. -/
theorem branch_selection_once_witness :
    chat ⟨"hi", "s1"⟩ emptyRateCounts "ip" 0 ⟨[], emptyPinStore⟩
        (FirstOkBehaviors.lift quietFirstOkB) (liftOk quietRun) =
      (ChatOutcome.streamed (firstEvents quietFirstOkB "hi" "s1" ⟨[], emptyPinStore⟩)
        (generate_first_conversation (FirstOkBehaviors.lift quietFirstOkB) "hi" "s1" "s1"
          ⟨[], emptyPinStore⟩).2,
       (check_rate_limit emptyRateCounts "ip" 0 10 60).2)
    ∧ check_conversation_if_exist (create_session [] "MODEL" "s1" "s1") "MODEL" "s1" "s1" =
        true :=
  (branch_selection_once ⟨"hi", "s1"⟩ ⟨"hi", "s1"⟩ emptyRateCounts "ip" 0
      ⟨[], emptyPinStore⟩ quietFirstOkB quietRun rfl rfl).1 rfl

/-! ## Claim C8 — continuation-pipeline error guard -/

/-- The report loop never emits an error event. -/
lemma reportLoop_no_error (bs : List AgentBehavior) (q user_id session_id : String) :
    ∀ (s : Sessions) (p : PinStore) (s' : Sessions) (p' : PinStore)
      (evs : List StreamEvent) (msg : String),
      reportLoop bs q user_id session_id s p = .ok (s', p', evs) →
      StreamEvent.error msg ∉ evs := by
  induction bs with
  | nil =>
    intro s p s' p' evs msg h
    simp only [reportLoop, Except.ok.injEq, Prod.mk.injEq] at h
    rcases h with ⟨-, -, h3⟩
    subst h3
    simp
  | cons b rest ih =>
    intro s p s' p' evs msg h
    simp only [reportLoop] at h
    split at h
    · simp at h
    · split at h
      · simp only [Except.ok.injEq, Prod.mk.injEq] at h
        rcases h with ⟨-, -, h3⟩
        subst h3
        simp
      · split at h
        · simp at h
        · simp only [Except.ok.injEq, Prod.mk.injEq] at h
          rcases h with ⟨-, -, h3⟩
          subst h3
          intro hmem
          rcases List.mem_cons.mp hmem with heq | hmem2
          · exact StreamEvent.noConfusion heq
          · exact ih _ _ _ _ _ msg (by assumption) hmem2

/-- The first-turn pipeline never emits an error event (it has no
top-level guard: its events are only pin frames and agent replies, and an
escaping exception cuts the stream without any error frame). -/
lemma first_conversation_no_error (b : FirstBehaviors) (m user_id session_id msg : String)
    (st : OrchState) :
    StreamEvent.error msg ∉ (generate_first_conversation b m user_id session_id st).1 := by
  simp only [generate_first_conversation]
  split
  · simp
  · split
    · simp [SendPinStore.extract_pins, pinEv, agentResp]
    · split
      · simp [SendPinStore.extract_pins, pinEv, agentResp]
      · split
        · simp [SendPinStore.extract_pins, pinEv, agentResp]
        · have hno : StreamEvent.error msg ∉ _ :=
            reportLoop_no_error [b.report1, b.report2, b.report3] _ user_id session_id
              _ _ _ _ _ msg (by assumption)
          split
          · simp [SendPinStore.extract_pins, pinEv, agentResp, hno]
          · simp [SendPinStore.extract_pins, pinEv, agentResp, hno]

/-- C8: if an exception escapes the continuation pipeline's GENERAL step,
the stream is exactly one error event carrying the error description and
the generator then terminates normally (no retry, no further events).
The first-turn pipeline has no such guard: it never emits an error event
for any behaviour, and an exception escaping its first step propagates
uncaught, cutting the stream with no error frame. -/
theorem continuation_error_guard :
    (∀ (b : AgentBehavior) (m user_id session_id e : String) (st : OrchState),
        b m = .error e →
        generate_after_second_conversations b m user_id session_id st =
          ([StreamEvent.error ("会話中にエラーが発生しました: " ++ e)], .ok st))
    ∧ (∀ (b : FirstBehaviors) (m user_id session_id msg : String) (st : OrchState),
        StreamEvent.error msg ∉ (generate_first_conversation b m user_id session_id st).1)
    ∧ (∀ (b : FirstBehaviors) (m user_id session_id e : String) (st : OrchState),
        b.station m = .error e →
        generate_first_conversation b m user_id session_id st = ([], .error e)) := by
  refine ⟨?_, first_conversation_no_error, ?_⟩
  · intro b m user_id session_id e st hb
    simp [generate_after_second_conversations, CustomAgent.stream, hb]
  · intro b m user_id session_id e st hb
    simp [generate_first_conversation, CustomAgent.stream, hb]

/-- First-turn behaviours whose every invocation throws. -/
def failFirstB : FirstBehaviors :=
  ⟨fun _ => .error "boom", fun _ => .error "boom", fun _ => .error "boom",
   fun _ => .error "boom", fun _ => .error "boom", fun _ => .error "boom",
   fun _ => .error "boom"⟩

/-- Witness for `continuation_error_guard` at concrete failing
behaviours. -/
theorem continuation_error_guard_witness :
    generate_after_second_conversations (fun _ => .error "boom") "m" "u" "s"
        ⟨[], emptyPinStore⟩ =
      ([StreamEvent.error ("会話中にエラーが発生しました: " ++ "boom")],
       .ok ⟨[], emptyPinStore⟩)
    ∧ StreamEvent.error "x" ∉
        (generate_first_conversation failFirstB "m" "u" "s" ⟨[], emptyPinStore⟩).1
    ∧ generate_first_conversation failFirstB "m" "u" "s" ⟨[], emptyPinStore⟩ =
        ([], .error "boom") :=
  ⟨continuation_error_guard.1 (fun _ => .error "boom") "m" "u" "s" "boom"
      ⟨[], emptyPinStore⟩ rfl,
   continuation_error_guard.2.1 failFirstB "m" "u" "s" "x" ⟨[], emptyPinStore⟩,
   continuation_error_guard.2.2 failFirstB "m" "u" "s" "boom" ⟨[], emptyPinStore⟩ rfl⟩

/-! ## Claim C6 — rate-limiter window behaviour -/

/-- The first request from a fresh client is accepted and recorded under
its minute bucket. -/
lemma rate_first (cl : String) (t : Int) :
    check_rate_limit emptyRateCounts cl t 10 60 =
      (true, singleClient cl [(t / 60 * 60, 1)]) := by
  simp only [check_rate_limit, emptyRateCounts, List.filter_nil, List.map_nil,
    List.sum_nil]
  rw [if_neg (by omega : ¬ (10 : Nat) ≤ 0)]
  simp only [bumpBucket, List.any_nil, Bool.false_eq_true, if_false, List.nil_append,
    Prod.mk.injEq]
  refine ⟨trivial, funext fun c => ?_⟩
  by_cases hc : c = cl <;> simp [singleClient, hc]

/-- A further request at the same time `t`, with `k < 10` requests already
recorded in `t`'s minute bucket, is accepted and increments that bucket. -/
lemma rate_step_same_minute (cl : String) (t : Int) (k : Nat) (hk : k < 10) :
    check_rate_limit (singleClient cl [(t / 60 * 60, k)]) cl t 10 60 =
      (true, singleClient cl [(t / 60 * 60, k + 1)]) := by
  have hB : t - 60 < t / 60 * 60 := by omega
  have hfilter : List.filter (fun b => decide (t - 60 < b.1)) [(t / 60 * 60, k)] =
      [(t / 60 * 60, k)] := by
    simp [hB]
  have hbump : bumpBucket [(t / 60 * 60, k)] (t / 60 * 60) = [(t / 60 * 60, k + 1)] := by
    simp [bumpBucket]
  simp only [check_rate_limit]
  rw [show singleClient cl [(t / 60 * 60, k)] cl = [(t / 60 * 60, k)] from by
    simp [singleClient]]
  rw [hfilter]
  simp only [List.map_cons, List.map_nil, List.sum_cons, List.sum_nil, Nat.add_zero]
  rw [if_neg (by omega : ¬ 10 ≤ k), hbump]
  simp only [Prod.mk.injEq]
  refine ⟨trivial, funext fun c => ?_⟩
  by_cases hc : c = cl <;> simp [singleClient, hc]

/-- Folding `n` more same-time requests over a single-bucket state adds
`n` to the bucket (while the running total stays within the limit). -/
lemma rate_fold_same (cl : String) (t : Int) :
    ∀ (n k : Nat), k + n ≤ 10 →
      rateCallsAll (singleClient cl [(t / 60 * 60, k)]) cl (List.replicate n t) =
        singleClient cl [(t / 60 * 60, k + n)] := by
  intro n
  induction n with
  | zero => intro k h; simp [rateCallsAll]
  | succ n ih =>
    intro k h
    have hk : k < 10 := by omega
    have hstep : rateCallsAll (singleClient cl [(t / 60 * 60, k)]) cl
        (List.replicate (n + 1) t) =
        rateCallsAll (singleClient cl [(t / 60 * 60, k + 1)]) cl (List.replicate n t) := by
      rw [List.replicate_succ]
      simp only [rateCallsAll, List.foldl_cons]
      rw [rate_step_same_minute cl t k hk]
    rw [hstep, ih (k + 1) (by omega)]
    have : k + 1 + n = k + (n + 1) := by omega
    rw [this]

/-- Ten same-time requests from a fresh client are all recorded under one
minute bucket. -/
lemma rate_ten (cl : String) (t : Int) :
    rateCallsAll emptyRateCounts cl (List.replicate 10 t) =
      singleClient cl [(t / 60 * 60, 10)] := by
  have h0 : (10 : Nat) = 9 + 1 := rfl
  rw [h0, List.replicate_succ]
  simp only [rateCallsAll, List.foldl_cons]
  rw [rate_first cl t]
  have := rate_fold_same cl t 9 1 (by omega)
  simpa [rateCallsAll] using this

/-- Every entry of a `bumpBucket` result has a first component that was
already a bucket key or is the new key. -/
lemma bumpBucket_pred (P : Int → Prop) (bs : List (Int × Nat)) (key : Int)
    (hbs : ∀ b ∈ bs, P b.1) (hkey : P key) : ∀ e ∈ bumpBucket bs key, P e.1 := by
  intro e he
  unfold bumpBucket at he
  split at he
  · rcases List.mem_map.mp he with ⟨b, hb, hbe⟩
    by_cases hb1 : b.1 = key
    · rw [if_pos hb1] at hbe
      rw [← hbe]
      exact hbs b hb
    · rw [if_neg hb1] at hbe
      rw [← hbe]
      exact hbs b hb
  · rcases List.mem_append.mp he with hb | hb
    · exact hbs e hb
    · simp only [List.mem_singleton] at hb
      rw [hb]
      exact hkey

/-- C6 is false on the code: timestamps are bucketed to minute starts, so
10 requests at `t = 119` all land in bucket `60` (second conjunct), and
the 11th request at `t = 125` — only 6 time units later, well inside the
60-unit window — is *accepted*, because bucket `60` is pruned
(`60 ≤ 125 - 60`), not rejected as the claim states. -/
theorem rate_limit_window_counterexample :
    ((125 : Int) - 119 < 60)
    ∧ (rateCallsAll emptyRateCounts "c" (List.replicate 10 119)) "c" = [(60, 10)]
    ∧ (check_rate_limit (rateCallsAll emptyRateCounts "c" (List.replicate 10 119))
        "c" 125 10 60).1 = true := by
  refine ⟨by decide, by decide, by decide⟩

/-- C6 (amended): entries older than the window are pruned on every check
(first conjunct, for the default window 60 — the state kept for the
checked client only holds entries newer than `now - 60`); and with the
default limit 10 and window 60, after 10 recorded requests at time `t`,
an 11th request at time `t1` inside the window is rejected *provided the
minute bucket `t / 60 * 60` is still inside the window at `t1`* (which
always holds when `t1 = t`), while a request at `t2 ≥ t + 60`, after the
window has elapsed, is accepted. -/
theorem rate_limit_window_amended :
    (∀ (counts : RateCounts) (c : String) (now : Int) (lim : Nat) (e : Int × Nat),
        e ∈ (check_rate_limit counts c now lim 60).2 c → now - 60 < e.1)
    ∧ (∀ (cl : String) (t t1 t2 : Int), t ≤ t1 → t1 - 60 < t / 60 * 60 → t + 60 ≤ t2 →
        (check_rate_limit (rateCallsAll emptyRateCounts cl (List.replicate 10 t))
            cl t1 10 60).1 = false
        ∧ (check_rate_limit (rateCallsAll emptyRateCounts cl (List.replicate 10 t))
            cl t2 10 60).1 = true) := by
  constructor
  · intro counts c now lim e hmem
    simp only [check_rate_limit] at hmem
    by_cases hle :
        lim ≤ ((List.filter (fun b => decide (now - 60 < b.1)) (counts c)).map Prod.snd).sum
    · simp only [if_pos hle, if_pos rfl] at hmem
      have := (List.mem_filter.mp hmem).2
      exact of_decide_eq_true this
    · simp only [if_neg hle, if_pos rfl] at hmem
      refine bumpBucket_pred (fun x => now - 60 < x) _ _ ?_ (by omega) e hmem
      intro b hb
      exact of_decide_eq_true (List.mem_filter.mp hb).2
  · intro cl t t1 t2 h1 hb h2
    rw [rate_ten]
    constructor
    · have hfilter : List.filter (fun b => decide (t1 - 60 < b.1)) [(t / 60 * 60, 10)] =
          [(t / 60 * 60, 10)] := by
        simp [hb]
      simp only [check_rate_limit]
      rw [show singleClient cl [(t / 60 * 60, 10)] cl = [(t / 60 * 60, 10)] from by
        simp [singleClient]]
      rw [hfilter]
      norm_num
    · have hB2 : ¬ (t2 - 60 < t / 60 * 60) := by omega
      have hfilter : List.filter (fun b => decide (t2 - 60 < b.1)) [(t / 60 * 60, 10)] =
          [] := by
        simp [hB2]
      simp only [check_rate_limit]
      rw [show singleClient cl [(t / 60 * 60, 10)] cl = [(t / 60 * 60, 10)] from by
        simp [singleClient]]
      rw [hfilter]
      norm_num

/-- Witness for `rate_limit_window_amended`: 10 requests at `t = 119`,
an 11th at the same instant is rejected, one at `t = 179` is accepted;
and a concrete pruning instance. -/
theorem rate_limit_window_amended_witness :
    ((100, 1) ∈ (check_rate_limit (singleClient "c" [(100, 1)]) "c" 120 10 60).2 "c" →
      (120 : Int) - 60 < 100)
    ∧ (check_rate_limit (rateCallsAll emptyRateCounts "c" (List.replicate 10 119))
        "c" 119 10 60).1 = false
    ∧ (check_rate_limit (rateCallsAll emptyRateCounts "c" (List.replicate 10 119))
        "c" 179 10 60).1 = true := by
  have h := rate_limit_window_amended.2 "c" 119 119 179 (by omega) (by decide) (by omega)
  exact ⟨fun hm => rate_limit_window_amended.1 (singleClient "c" [(100, 1)]) "c" 120 10
    (100, 1) hm, h.1, h.2⟩

/-! ## Claim C10 — a rejected request records nothing -/

/-- C10: when `check_rate_limit` returns `false`, the state for the
rejected client is exactly the pruned bucket list — no request is
recorded — and every other client's state is untouched. -/
theorem rate_limit_reject_frame (counts : RateCounts) (c : String) (now : Int)
    (lim : Nat) (win : Int)
    (h : (check_rate_limit counts c now lim win).1 = false) :
    ∀ c' : String, (check_rate_limit counts c now lim win).2 c' =
      if c' = c then (counts c).filter (fun b => decide (now - win < b.1)) else counts c' := by
  intro c'
  unfold check_rate_limit at h ⊢
  by_cases hle : lim ≤ (((counts c).filter fun b => decide (now - win < b.1)).map Prod.snd).sum
  · simp [hle]
  · simp [hle] at h

/-- Witness for `rate_limit_reject_frame`: a client with a full window is
rejected and its state is exactly the pruned list; another client's state
is unchanged. -/
theorem rate_limit_reject_frame_witness :
    (check_rate_limit (singleClient "c" [(100, 10)]) "c" 120 10 60).1 = false
    ∧ (check_rate_limit (singleClient "c" [(100, 10)]) "c" 120 10 60).2 "c" =
        ((singleClient "c" [(100, 10)]) "c").filter (fun b => decide ((120 : Int) - 60 < b.1))
    ∧ (check_rate_limit (singleClient "c" [(100, 10)]) "c" 120 10 60).2 "d" =
        (singleClient "c" [(100, 10)]) "d" := by
  refine ⟨by decide, ?_, ?_⟩
  · have h := rate_limit_reject_frame (singleClient "c" [(100, 10)]) "c" 120 10 60
      (by decide) "c"
    simpa using h
  · have h := rate_limit_reject_frame (singleClient "c" [(100, 10)]) "c" 120 10 60
      (by decide) "d"
    simpa using h

/-! ## Claim C7 — ChatRequest validation -/

/-- C7 is false on the whitespace part: a message consisting of a single
space passes the `min_length=1` constraint (which pydantic v2 checks on
the *raw* value, before the mode-`after` `sanitize_message` validator
runs), is then trimmed to the empty string, and the request is *accepted*
with an empty message — not rejected as the claim states. -/
theorem chat_request_validation_counterexample :
    validateChatRequest ⟨" ", "s1"⟩ = .ok ⟨"", "s1"⟩
    ∧ (ChatRequest.sanitize_message " ").length = 0 := by
  exact ⟨rfl, rfl⟩

/-- C7 (amended): validation runs before any orchestration; an over-long
message (`> 1000` chars) is rejected; a request whose raw message length
is in `1..1000` and whose session id meets the length and charset rules is
accepted with the message trimmed — in particular a whitespace-only
message of length ≥ 1 is accepted with value trimmed to the empty string,
because the minimum-length constraint applies to the raw message before
trimming; session id `"abc-123_ok"` is accepted and `"abc 123!"` is
rejected; and a request rejected by validation produces no stream and
never reaches the pipeline (`chat` returns the validation error with the
rate-limiter state untouched). -/
theorem chat_request_validation_amended :
    (∀ raw : ChatRequestRaw, 1000 < raw.message.length →
        validateChatRequest raw = .error "message too long")
    ∧ (∀ raw : ChatRequestRaw,
        1 ≤ raw.message.length → raw.message.length ≤ 1000 →
        1 ≤ raw.session_id.length → raw.session_id.length ≤ 100 →
        pyIsalnum (pyRemoveAll (pyRemoveAll raw.session_id '-') '_') = true →
        validateChatRequest raw = .ok ⟨pyStrip raw.message, raw.session_id⟩)
    ∧ validateChatRequest ⟨"hello", "abc-123_ok"⟩ = .ok ⟨"hello", "abc-123_ok"⟩
    ∧ validateChatRequest ⟨"hello", "abc 123!"⟩ =
        .error "session_id must contain only alphanumeric characters, hyphens, and underscores"
    ∧ (∀ (raw : ChatRequestRaw) (counts : RateCounts) (client_ip : String) (now : Int)
        (st : OrchState) (fb : FirstBehaviors) (cb : AgentBehavior) (e : String),
        validateChatRequest raw = .error e →
        chat raw counts client_ip now st fb cb = (.validationError e, counts)) := by
  refine ⟨?_, ?_, rfl, rfl, ?_⟩
  · intro raw h
    have h1 : ¬ raw.message.length < 1 := by omega
    simp [validateChatRequest, h1, h]
  · intro raw hm1 hm2 hs1 hs2 hsid
    have h1 : ¬ raw.message.length < 1 := by omega
    have h2 : ¬ 1000 < raw.message.length := by omega
    have h3 : ¬ raw.session_id.length < 1 := by omega
    have h4 : ¬ 100 < raw.session_id.length := by omega
    simp [validateChatRequest, h1, h2, h3, h4, ChatRequest.validate_session_id, hsid,
      ChatRequest.sanitize_message]
  · intro raw counts client_ip now st fb cb e hv
    simp [chat, hv]

/-- Witness for `chat_request_validation_amended` at concrete requests. -/
theorem chat_request_validation_amended_witness :
    validateChatRequest ⟨String.mk (List.replicate 1001 'a'), "s1"⟩ =
      .error "message too long"
    ∧ validateChatRequest ⟨" ", "s1"⟩ = .ok ⟨pyStrip " ", "s1"⟩
    ∧ chat ⟨"", "s1"⟩ emptyRateCounts "ip" 0 ⟨[], emptyPinStore⟩ failFirstB
        (fun _ => .error "e") = (.validationError "message too short", emptyRateCounts) := by
  refine ⟨?_, ?_, ?_⟩
  · apply chat_request_validation_amended.1
    show 1000 < (String.mk (List.replicate 1001 'a')).length
    have hlen : (List.replicate 1001 'a').length = 1001 := by
      rw [List.length_replicate]
    show 1000 < (List.replicate 1001 'a').length
    omega
  · exact chat_request_validation_amended.2.1 ⟨" ", "s1"⟩ (by decide) (by decide)
      (by decide) (by decide) (by decide)
  · exact chat_request_validation_amended.2.2.2.2 ⟨"", "s1"⟩ emptyRateCounts "ip" 0
      ⟨[], emptyPinStore⟩ failFirstB (fun _ => .error "e") "message too short" rfl

/-! ## Claim C9 — separator-only session ids are rejected -/

/-- C9: a session id consisting only of hyphens and/or underscores — every
character in the allowed set and the length in range — is still rejected,
because after `replace("-", "").replace("_", "")` the remaining string is
empty and `"".isalnum()` is false. -/
theorem session_id_only_separators_rejected (s : String)
    (hchars : ∀ c ∈ s.data, c = '-' ∨ c = '_')
    (hlen1 : 1 ≤ s.length) (hlen2 : s.length ≤ 100) :
    ChatRequest.validate_session_id s =
      .error "session_id must contain only alphanumeric characters, hyphens, and underscores"
    ∧ validateChatRequest ⟨"hello", s⟩ =
      .error "session_id must contain only alphanumeric characters, hyphens, and underscores" := by
  have hdata : ((s.data.filter fun a => decide (a ≠ '-')).filter fun a => decide (a ≠ '_'))
      = [] := by
    apply List.filter_eq_nil_iff.mpr
    intro a ha
    have ha' := List.mem_filter.mp ha
    rcases hchars a ha'.1 with h | h
    · exact absurd h (of_decide_eq_true ha'.2)
    · simp [h]
  have hfalse : pyIsalnum (pyRemoveAll (pyRemoveAll s '-') '_') = false := by
    simp only [pyRemoveAll, pyIsalnum, hdata]
    rfl
  have hvs : ChatRequest.validate_session_id s =
      .error "session_id must contain only alphanumeric characters, hyphens, and underscores" := by
    simp [ChatRequest.validate_session_id, hfalse]
  refine ⟨hvs, ?_⟩
  have h3 : ¬ s.length < 1 := by omega
  have h4 : ¬ 100 < s.length := by omega
  simp [validateChatRequest, h3, h4, hvs, show "hello".length = 5 from rfl]

/-- Witness for `session_id_only_separators_rejected` at `"---"`. -/
theorem session_id_only_separators_rejected_witness :
    ChatRequest.validate_session_id "---" =
      .error "session_id must contain only alphanumeric characters, hyphens, and underscores"
    ∧ validateChatRequest ⟨"hello", "---"⟩ =
      .error "session_id must contain only alphanumeric characters, hyphens, and underscores" :=
  session_id_only_separators_rejected "---" (by decide) (by decide) (by decide)

end EkiPick
